import Mathlib

/-!
Shallow embedding of `src/models/gradient_boosting_tree.py`.

Vectors are `List ℝ`, feature matrices are `List (List ℝ)` (one inner list
per sample row, so `X.shape[0]` is `X.length`).  The `DecisionTreeRegressor`
weak learner is an external collaborator of this module; it is abstracted by
a `WeakLearner` record supplying the constructor-plus-fit step and `predict`.
The abstract methods of the `GradientBoostingTree` base class are abstracted
by a `LossPolicy` record; the two concrete subclasses provide its fields.
numpy's vectorised arithmetic on equal-shape 1-d arrays is `List.zipWith`.
-/

/-- `1 / (1 + np.exp(-x))`, the sigmoid expression used by the classifier. -/
noncomputable def sigmoid (x : ℝ) : ℝ := 1 / (1 + Real.exp (-x))

/-- `np.mean` on a 1-d array: sum divided by length. -/
noncomputable def npMean (Y : List ℝ) : ℝ := Y.sum / Y.length

/-- `np.clip(x, lo, hi) = min(max(x, lo), hi)` on a scalar. -/
noncomputable def npClip (x lo hi : ℝ) : ℝ := min (max x lo) hi

open Classical in
/-- `np.round(x, 0)`: round to the nearest integer, ties to the nearest even
integer (IEEE round-half-to-even, numpy's documented behaviour). -/
noncomputable def npRound (x : ℝ) : ℝ :=
  if Int.fract x = 1 / 2 then
    (if Even ⌊x⌋ then (⌊x⌋ : ℝ) else (⌊x⌋ : ℝ) + 1)
  else ((round x : ℤ) : ℝ)

/-- The three abstract methods of `GradientBoostingTree` that subclasses
implement (`_compute_residuals`, `_initial_prediction`,
`_interpret_prediction`). -/
structure LossPolicy where
  compute_residuals : List ℝ → List ℝ → List ℝ
  initial_prediction : List ℝ → ℝ
  interpret_prediction : ℝ → ℝ

/-- The external `DecisionTreeRegressor` collaborator, abstracted.
`mkFit d X r` stands for `DecisionTreeRegressor(max_depth=d)` followed by
`.fit(X, r)` (a fresh learner each time); `predict w X` is `w.predict(X)`. -/
structure WeakLearner (W : Type) where
  mkFit : ℕ → List (List ℝ) → List ℝ → W
  predict : W → List (List ℝ) → List ℝ

/-- State of a `GradientBoostingTree` instance.  `initial_prediction` is
`none` until `fit` first assigns the attribute (reading it before that
raises `AttributeError` in Python, modelled by `predict` returning `none`). -/
structure GradientBoostingTree (W : Type) where
  estimators : List W
  max_depth : ℕ
  n_estimators : ℕ
  learning_rate : ℝ
  initial_prediction : Option ℝ

namespace GradientBoostingTree

/-- `GradientBoostingTree.__init__(n_estimators, max_depth, learning_rate)`:
empty estimator list, hyperparameters stored, no initial prediction yet. -/
def init (W : Type) (n_estimators max_depth : ℕ) (learning_rate : ℝ) :
    GradientBoostingTree W :=
  { estimators := []
    max_depth := max_depth
    n_estimators := n_estimators
    learning_rate := learning_rate
    initial_prediction := none }

/-- The `for _ in range(self.n_estimators)` loop body of `fit`, iterated:
compute residuals from the current predictions, fit a fresh weak learner on
them, accumulate `learning_rate * estimator.predict(X)` into the prediction
vector in place, and append the estimator to the ensemble. -/
noncomputable def fitLoop {W : Type} (wl : WeakLearner W) (pol : LossPolicy)
    (max_depth : ℕ) (learning_rate : ℝ) (X : List (List ℝ)) (Y : List ℝ) :
    ℕ → List W × List ℝ → List W × List ℝ
  | 0, s => s
  | n + 1, (ests, preds) =>
      let residuals := pol.compute_residuals Y preds
      let estimator := wl.mkFit max_depth X residuals
      let preds2 :=
        List.zipWith (fun p q => p + learning_rate * q) preds
          (wl.predict estimator X)
      fitLoop wl pol max_depth learning_rate X Y n (ests ++ [estimator], preds2)

/-- `GradientBoostingTree.fit(X, Y)`: set `self.initial_prediction`,
initialise `predictions = np.full(Y.shape, self.initial_prediction)` and run
the boosting loop `n_estimators` times, appending each estimator to
`self.estimators` (which is NOT cleared first). -/
noncomputable def fit {W : Type} (wl : WeakLearner W) (pol : LossPolicy)
    (m : GradientBoostingTree W) (X : List (List ℝ)) (Y : List ℝ) :
    GradientBoostingTree W :=
  let ip := pol.initial_prediction Y
  let s := fitLoop wl pol m.max_depth m.learning_rate X Y m.n_estimators
      (m.estimators, List.replicate Y.length ip)
  { m with estimators := s.1, initial_prediction := some ip }

/-- `GradientBoostingTree.predict(X)`: `none` when `self.initial_prediction`
was never assigned (Python raises `AttributeError`); otherwise start from
`np.full(X.shape[0], self.initial_prediction)`, add
`learning_rate * estimator.predict(X)` for each estimator in ensemble order,
then map `self._interpret_prediction` over the accumulated vector. -/
noncomputable def predict {W : Type} (wl : WeakLearner W) (pol : LossPolicy)
    (m : GradientBoostingTree W) (X : List (List ℝ)) : Option (List ℝ) :=
  match m.initial_prediction with
  | none => none
  | some ip =>
      let preds := m.estimators.foldl
        (fun acc estimator =>
          List.zipWith (fun p q => p + m.learning_rate * q) acc
            (wl.predict estimator X))
        (List.replicate X.length ip)
      some (preds.map pol.interpret_prediction)

/-- `predict` with explicit state passing: the body of `predict` assigns no
attribute of `self`, so the post-state is the pre-state unchanged. -/
noncomputable def predictS {W : Type} (wl : WeakLearner W) (pol : LossPolicy)
    (m : GradientBoostingTree W) (X : List (List ℝ)) :
    GradientBoostingTree W × Option (List ℝ) :=
  (m, predict wl pol m X)

end GradientBoostingTree

namespace GradientBoostingClassifier

/-- `GradientBoostingClassifier._compute_residuals`:
`Y - (1 / (1 + np.exp(-prediction)))`, pointwise. -/
noncomputable def compute_residuals (Y prediction : List ℝ) : List ℝ :=
  List.zipWith (fun y p => y - sigmoid p) Y prediction

/-- `GradientBoostingClassifier._initial_prediction`:
`p = np.clip(np.mean(Y), 1e-10, 1 - 1e-10)`; return `np.log(p / (1 - p))`. -/
noncomputable def initial_prediction (Y : List ℝ) : ℝ :=
  let p := npClip (npMean Y) (1e-10) (1 - 1e-10)
  Real.log (p / (1 - p))

/-- `GradientBoostingClassifier._interpret_prediction`:
`np.round(1 / (1 + np.exp(-prediction)), 0)`. -/
noncomputable def interpret_prediction (prediction : ℝ) : ℝ :=
  npRound (sigmoid prediction)

/-- The `LossPolicy` supplied by the `GradientBoostingClassifier` subclass. -/
noncomputable def policy : LossPolicy :=
  { compute_residuals := compute_residuals
    initial_prediction := initial_prediction
    interpret_prediction := interpret_prediction }

end GradientBoostingClassifier

namespace GradientBoostingRegressor

/-- `GradientBoostingRegressor._compute_residuals`: `Y - prediction`,
pointwise. -/
def compute_residuals (Y prediction : List ℝ) : List ℝ :=
  List.zipWith (fun y p => y - p) Y prediction

/-- `GradientBoostingRegressor._initial_prediction`: `np.mean(Y)`. -/
noncomputable def initial_prediction (Y : List ℝ) : ℝ := npMean Y

/-- `GradientBoostingRegressor._interpret_prediction`: the prediction
returned as is. -/
def interpret_prediction (prediction : ℝ) : ℝ := prediction

/-- The `LossPolicy` supplied by the `GradientBoostingRegressor` subclass. -/
noncomputable def policy : LossPolicy :=
  { compute_residuals := compute_residuals
    initial_prediction := initial_prediction
    interpret_prediction := interpret_prediction }

end GradientBoostingRegressor

/-!  Spec-side definitions for the refinement claim about `fit`: the
prediction-vector recurrence exactly as §4.1 of the specification words it. -/

/-- The spec's working prediction vector after `i` boosting iterations:
entry `0` is the length-`N` vector filled with the initial prediction, and
step `i+1` adds `learningRate * weakLearner.predict(features)` pointwise,
where the weak learner of step `i+1` was fitted on the residuals of the
step-`i` vector. -/
noncomputable def specPredictions {W : Type} (wl : WeakLearner W)
    (pol : LossPolicy) (max_depth : ℕ) (learning_rate : ℝ)
    (X : List (List ℝ)) (Y : List ℝ) : ℕ → List ℝ
  | 0 => List.replicate Y.length (pol.initial_prediction Y)
  | i + 1 =>
      let prev := specPredictions wl pol max_depth learning_rate X Y i
      let w := wl.mkFit max_depth X (pol.compute_residuals Y prev)
      List.zipWith (fun p q => p + learning_rate * q) prev (wl.predict w X)

/-- The spec's `i`-th appended weak learner (0-based): a fresh learner fitted
on `(features, residuals)` where the residuals come from the step-`i`
prediction vector. -/
noncomputable def specLearner {W : Type} (wl : WeakLearner W)
    (pol : LossPolicy) (max_depth : ℕ) (learning_rate : ℝ)
    (X : List (List ℝ)) (Y : List ℝ) (i : ℕ) : W :=
  wl.mkFit max_depth X
    (pol.compute_residuals Y (specPredictions wl pol max_depth learning_rate X Y i))

/-!  Helper lemmas. -/

theorem fitLoop_eq_spec {W : Type} (wl : WeakLearner W) (pol : LossPolicy)
    (d : ℕ) (lr : ℝ) (X : List (List ℝ)) (Y : List ℝ) (n : ℕ) :
    ∀ (i : ℕ) (ests : List W),
      GradientBoostingTree.fitLoop wl pol d lr X Y n
          (ests, specPredictions wl pol d lr X Y i) =
        (ests ++ (List.range n).map (fun k => specLearner wl pol d lr X Y (i + k)),
          specPredictions wl pol d lr X Y (i + n)) := by
  induction n with
  | zero =>
      intro i ests
      simp [GradientBoostingTree.fitLoop]
  | succ n ih =>
      intro i ests
      have hstep : GradientBoostingTree.fitLoop wl pol d lr X Y (n + 1)
          (ests, specPredictions wl pol d lr X Y i) =
          GradientBoostingTree.fitLoop wl pol d lr X Y n
            (ests ++ [specLearner wl pol d lr X Y i],
              specPredictions wl pol d lr X Y (i + 1)) := by
        simp only [GradientBoostingTree.fitLoop, specLearner, specPredictions]
      rw [hstep, ih (i + 1)]
      have hmap : (List.range (n + 1)).map (fun k => specLearner wl pol d lr X Y (i + k)) =
          specLearner wl pol d lr X Y i ::
            (List.range n).map (fun k => specLearner wl pol d lr X Y (i + 1 + k)) := by
        rw [List.range_succ_eq_map, List.map_cons, List.map_map]
        refine congrArg (_ :: ·) (List.map_congr_left fun a _ => ?_)
        simp only [Function.comp_apply]
        rw [show i + Nat.succ a = i + 1 + a by omega]
      rw [hmap, show i + 1 + n = i + (n + 1) by omega]
      simp

theorem fitLoop_fst_length {W : Type} (wl : WeakLearner W) (pol : LossPolicy)
    (d : ℕ) (lr : ℝ) (X : List (List ℝ)) (Y : List ℝ) (n : ℕ) :
    ∀ (ests : List W) (preds : List ℝ),
      (GradientBoostingTree.fitLoop wl pol d lr X Y n (ests, preds)).1.length =
        ests.length + n := by
  induction n with
  | zero =>
      intro ests preds
      simp [GradientBoostingTree.fitLoop]
  | succ n ih =>
      intro ests preds
      simp only [GradientBoostingTree.fitLoop]
      rw [ih]
      simp
      omega

/-- C1: `fit(X, Y)` sets `InitialPrediction = LossPolicy.initialPrediction(Y)`,
starts from a working prediction vector of length `N = Y.length` filled with
that value, and performs exactly `n_estimators` iterations (no convergence
check or early exit), the `i`-th of which fits a fresh weak learner on the
residuals of the step-`i` prediction vector, accumulates
`learning_rate * weakLearner.predict(X)` pointwise, and appends the learner
to the ensemble — so the appended learners are exactly
`specLearner 0, …, specLearner (n_estimators - 1)` of the spec recurrence. -/
theorem fit_follows_spec {W : Type} (wl : WeakLearner W) (pol : LossPolicy)
    (m : GradientBoostingTree W) (X : List (List ℝ)) (Y : List ℝ) :
    (GradientBoostingTree.fit wl pol m X Y).initial_prediction =
        some (pol.initial_prediction Y) ∧
    (GradientBoostingTree.fit wl pol m X Y).estimators =
        m.estimators ++ (List.range m.n_estimators).map
          (specLearner wl pol m.max_depth m.learning_rate X Y) := by
  constructor
  · rfl
  · show (GradientBoostingTree.fitLoop wl pol m.max_depth m.learning_rate X Y
        m.n_estimators (m.estimators,
          List.replicate Y.length (pol.initial_prediction Y))).1 = _
    rw [show List.replicate Y.length (pol.initial_prediction Y) =
          specPredictions wl pol m.max_depth m.learning_rate X Y 0 from rfl,
        fitLoop_eq_spec]
    simp

/-- Pointwise description of the accumulation `foldl` used in `predict`:
starting from an accumulator of length `K` and folding learners whose
predictions all have length `K`, the result keeps length `K` and its `j`-th
entry is the start entry plus the sum of `learning_rate * prediction[j]`
over the learners, in order. -/
theorem predict_foldl_getD {W : Type} (wl : WeakLearner W) (lr : ℝ)
    (X : List (List ℝ)) (K : ℕ) (l : List W) :
    ∀ (acc : List ℝ), acc.length = K →
      (∀ w ∈ l, (wl.predict w X).length = K) →
      (List.foldl
          (fun acc estimator =>
            List.zipWith (fun p q => p + lr * q) acc (wl.predict estimator X))
          acc l).length = K ∧
      ∀ j, j < K →
        (List.foldl
            (fun acc estimator =>
              List.zipWith (fun p q => p + lr * q) acc (wl.predict estimator X))
            acc l).getD j 0 =
          acc.getD j 0 + (l.map (fun w => lr * (wl.predict w X).getD j 0)).sum := by
  induction l with
  | nil =>
      intro acc hacc _
      simp [hacc]
  | cons w l ih =>
      intro acc hacc hl
      have hw : (wl.predict w X).length = K := hl w (List.mem_cons_self w l)
      have hzlen : (List.zipWith (fun p q => p + lr * q) acc (wl.predict w X)).length = K := by
        simp [hacc, hw]
      have hrest : ∀ w' ∈ l, (wl.predict w' X).length = K :=
        fun w' hw' => hl w' (List.mem_cons_of_mem w hw')
      obtain ⟨hlen, hget⟩ := ih _ hzlen hrest
      refine ⟨by simpa using hlen, fun j hj => ?_⟩
      rw [List.foldl_cons, hget j hj]
      have hja : j < acc.length := by omega
      have hjw : j < (wl.predict w X).length := by omega
      have hjz : j < (List.zipWith (fun p q => p + lr * q) acc (wl.predict w X)).length := by
        omega
      rw [List.getD_eq_getElem _ _ hjz, List.getElem_zipWith,
        ← List.getD_eq_getElem acc 0 hja, ← List.getD_eq_getElem _ 0 hjw]
      simp [add_assoc]

/-- A concrete instantiation of the weak-learner collaborator used to
evaluate the theorems on closed inputs: fitting carries no state and every
prediction is the constant `1` for each sample row. -/
def constWL : WeakLearner Unit :=
  { mkFit := fun _ _ _ => ()
    predict := fun _ X => List.replicate X.length 1 }

theorem sigmoid_pos (x : ℝ) : 0 < sigmoid x := by
  unfold sigmoid
  positivity

theorem sigmoid_lt_one (x : ℝ) : sigmoid x < 1 := by
  unfold sigmoid
  rw [div_lt_one (by positivity)]
  have := Real.exp_pos (-x)
  linarith

/-- C2: on a fitted engine, `predict(X)` returns a vector with one entry per
row of `X`; its `j`-th entry is `interpret` applied (once, at the end) to
`InitialPrediction` plus the sum, in ensemble insertion order, of
`learning_rate * estimator.predict(X)[j]`. -/
theorem predict_accumulates_then_interprets {W : Type} (wl : WeakLearner W)
    (pol : LossPolicy) (m : GradientBoostingTree W) (X : List (List ℝ)) (ip : ℝ)
    (hip : m.initial_prediction = some ip)
    (hlen : ∀ w ∈ m.estimators, (wl.predict w X).length = X.length) :
    ∃ out, GradientBoostingTree.predict wl pol m X = some out ∧
      out.length = X.length ∧
      ∀ j, j < X.length →
        out.getD j 0 = pol.interpret_prediction
          (ip + (m.estimators.map
            (fun w => m.learning_rate * (wl.predict w X).getD j 0)).sum) := by
  obtain ⟨hflen, hfget⟩ := predict_foldl_getD wl m.learning_rate X X.length
    m.estimators (List.replicate X.length ip) (by simp) hlen
  refine ⟨_, by rw [GradientBoostingTree.predict, hip], by simpa using hflen,
    fun j hj => ?_⟩
  have hjf : j < (List.foldl
      (fun acc estimator =>
        List.zipWith (fun p q => p + m.learning_rate * q) acc
          (wl.predict estimator X))
      (List.replicate X.length ip) m.estimators).length := by omega
  have hjm : j < ((List.foldl
      (fun acc estimator =>
        List.zipWith (fun p q => p + m.learning_rate * q) acc
          (wl.predict estimator X))
      (List.replicate X.length ip) m.estimators).map pol.interpret_prediction).length := by
    simpa using hjf
  rw [List.getD_eq_getElem _ _ hjm, List.getElem_map,
    ← List.getD_eq_getElem _ 0 hjf, hfget j hj,
    List.getD_eq_getElem _ _ (by simpa using hj), List.getElem_replicate]

/-- Evaluation of the C2 theorem on a closed input: one estimator, learning
rate `1`, initial prediction `2`, a single sample row. -/
theorem predict_accumulates_then_interprets_witness :
    ∃ out, GradientBoostingTree.predict constWL GradientBoostingRegressor.policy
        ⟨[()], 1, 1, 1, some 2⟩ [[0]] = some out ∧
      out.length = 1 ∧
      ∀ j, j < 1 →
        out.getD j 0 = GradientBoostingRegressor.policy.interpret_prediction
          (2 + (([()] : List Unit).map
            (fun w => (1 : ℝ) * (constWL.predict w [[0]]).getD j 0)).sum) :=
  predict_accumulates_then_interprets constWL GradientBoostingRegressor.policy
    ⟨[()], 1, 1, 1, some 2⟩ [[0]] 2 rfl (by intro w _; simp [constWL])

/-- C3 counterexample: `fit` never clears `self.estimators`, so on an engine
built with `estimatorCount = 1`, fitting twice leaves `2` estimators in the
ensemble, not `1` as the claim states for a second fit. -/
theorem refit_keeps_old_estimators_cex :
    (GradientBoostingTree.fit constWL GradientBoostingRegressor.policy
        (GradientBoostingTree.fit constWL GradientBoostingRegressor.policy
          (GradientBoostingTree.init Unit 1 1 1) [[0]] [0]) [[0]] [0]).estimators.length = 2 ∧
      (2 : ℕ) ≠ 1 := by
  constructor
  · simp [GradientBoostingTree.fit, fitLoop_fst_length, GradientBoostingTree.init]
  · decide

/-- C3 amended: after `fit()` on an engine whose ensemble is empty (as after
construction), the ensemble has exactly `estimatorCount` learners; a second
`fit()` replaces `InitialPrediction` but appends `estimatorCount` further
learners instead of discarding the old ones, so the ensemble then has
`2 * estimatorCount` learners. -/
theorem fit_ensemble_growth {W : Type} (wl : WeakLearner W) (pol : LossPolicy)
    (m : GradientBoostingTree W) (X Y X2 Y2) (h : m.estimators = []) :
    (GradientBoostingTree.fit wl pol m X Y).estimators.length = m.n_estimators ∧
    (GradientBoostingTree.fit wl pol
        (GradientBoostingTree.fit wl pol m X Y) X2 Y2).estimators.length
      = 2 * m.n_estimators ∧
    (GradientBoostingTree.fit wl pol
        (GradientBoostingTree.fit wl pol m X Y) X2 Y2).initial_prediction
      = some (pol.initial_prediction Y2) := by
  refine ⟨?_, ?_, rfl⟩
  · simp [GradientBoostingTree.fit, fitLoop_fst_length, h]
  · simp [GradientBoostingTree.fit, fitLoop_fst_length, h]
    omega

/-- Evaluation of the amended C3 theorem on a closed input: an engine with
`estimatorCount = 1`, fitted twice. -/
theorem fit_ensemble_growth_witness :
    (GradientBoostingTree.fit constWL GradientBoostingRegressor.policy
        (GradientBoostingTree.init Unit 1 1 1) [[0]] [0]).estimators.length = 1 ∧
    (GradientBoostingTree.fit constWL GradientBoostingRegressor.policy
        (GradientBoostingTree.fit constWL GradientBoostingRegressor.policy
          (GradientBoostingTree.init Unit 1 1 1) [[0]] [0]) [[0]] [0]).estimators.length
      = 2 * 1 ∧
    (GradientBoostingTree.fit constWL GradientBoostingRegressor.policy
        (GradientBoostingTree.fit constWL GradientBoostingRegressor.policy
          (GradientBoostingTree.init Unit 1 1 1) [[0]] [0]) [[0]] [0]).initial_prediction
      = some (GradientBoostingRegressor.policy.initial_prediction [0]) :=
  fit_ensemble_growth constWL GradientBoostingRegressor.policy
    (GradientBoostingTree.init Unit 1 1 1) [[0]] [0] [[0]] [0] rfl

/-- C4: the classifier's `_initial_prediction` is the log-odds
`log(p / (1 - p))` of `p = mean(Y)` clamped into `[1e-10, 1 - 1e-10]`; in
particular for `Y = [1,1,1,0]` (so `p = 3/4`, unaffected by the clamp) it
equals `log 3`. -/
theorem classifier_initial_prediction_log_odds :
    (∀ Y : List ℝ, GradientBoostingClassifier.initial_prediction Y =
        Real.log (npClip (npMean Y) (1e-10) (1 - 1e-10) /
          (1 - npClip (npMean Y) (1e-10) (1 - 1e-10)))) ∧
    GradientBoostingClassifier.initial_prediction [1, 1, 1, 0] = Real.log 3 := by
  refine ⟨fun Y => rfl, ?_⟩
  have h1 : npMean [(1 : ℝ), 1, 1, 0] = 3 / 4 := by
    norm_num [npMean]
  have h2 : npClip ((3 : ℝ) / 4) (1e-10) (1 - 1e-10) = 3 / 4 := by
    rw [npClip, max_eq_left (by norm_num), min_eq_left (by norm_num)]
  rw [show GradientBoostingClassifier.initial_prediction [1, 1, 1, 0] =
      Real.log (npClip (npMean [1, 1, 1, 0]) (1e-10) (1 - 1e-10) /
        (1 - npClip (npMean [1, 1, 1, 0]) (1e-10) (1 - 1e-10))) from rfl, h1, h2]
  norm_num

/-- C5: the classifier's `_interpret_prediction` maps every real input to
`0` or `1`: it is the sigmoid followed by rounding at the `0.5` threshold,
so inputs whose sigmoid is below `1/2` give `0` and inputs whose sigmoid is
above `1/2` give `1` (at the tie `np.round` rounds half to even, giving `0`). -/
theorem classifier_interpret_binary (v : ℝ) :
    (GradientBoostingClassifier.interpret_prediction v = 0 ∨
        GradientBoostingClassifier.interpret_prediction v = 1) ∧
      (sigmoid v < 1 / 2 → GradientBoostingClassifier.interpret_prediction v = 0) ∧
      (1 / 2 < sigmoid v → GradientBoostingClassifier.interpret_prediction v = 1) := by
  have hpos := sigmoid_pos v
  have hlt := sigmoid_lt_one v
  have hfr : Int.fract (sigmoid v) = sigmoid v :=
    Int.fract_eq_self.mpr ⟨hpos.le, hlt⟩
  have hf0 : ⌊sigmoid v⌋ = 0 :=
    Int.floor_eq_zero_iff.mpr (Set.mem_Ico.mpr ⟨hpos.le, hlt⟩)
  by_cases hs : sigmoid v = 1 / 2
  · have h0 : GradientBoostingClassifier.interpret_prediction v = 0 := by
      unfold GradientBoostingClassifier.interpret_prediction npRound
      rw [hfr, if_pos hs, hf0]
      simp
    exact ⟨Or.inl h0, fun _ => h0,
      fun hgt => absurd hgt (by rw [hs]; exact lt_irrefl _)⟩
  · have hround : GradientBoostingClassifier.interpret_prediction v
        = ((round (sigmoid v) : ℤ) : ℝ) := by
      unfold GradientBoostingClassifier.interpret_prediction npRound
      rw [hfr, if_neg hs]
    rcases lt_or_gt_of_ne hs with hlt2 | hgt2
    · have hr : round (sigmoid v) = 0 := by
        rw [round_eq, Int.floor_eq_zero_iff, Set.mem_Ico]
        constructor <;> linarith
      have h0 : GradientBoostingClassifier.interpret_prediction v = 0 := by
        rw [hround, hr]
        norm_num
      exact ⟨Or.inl h0, fun _ => h0, fun hgt => absurd hgt (by linarith)⟩
    · have hr : round (sigmoid v) = 1 := by
        rw [round_eq, Int.floor_eq_iff]
        constructor <;> push_cast <;> linarith
      have h1 : GradientBoostingClassifier.interpret_prediction v = 1 := by
        rw [hround, hr]
        norm_num
      exact ⟨Or.inr h1, fun hl2 => absurd hl2 (by linarith), fun _ => h1⟩

/-- Evaluation of the C5 theorem on a closed input: the logit `1` has
sigmoid above `1/2`, so it is interpreted as class `1`. -/
theorem classifier_interpret_binary_witness :
    GradientBoostingClassifier.interpret_prediction 1 = 1 :=
  (classifier_interpret_binary 1).2.2 (by
    have h : Real.exp (-1) < 1 := by
      have h2 := Real.exp_lt_exp.mpr (show (-1 : ℝ) < 0 by norm_num)
      rwa [Real.exp_zero] at h2
    unfold sigmoid
    rw [lt_div_iff₀ (by positivity)]
    linarith)

/-- C6: the regressor policy computes residuals `Y[j] - predictions[j]`
pointwise, its initial prediction is the arithmetic mean of the targets, and
its `_interpret_prediction` is the identity. -/
theorem regressor_policy_spec (Y P : List ℝ) (h : Y.length = P.length) :
    (GradientBoostingRegressor.compute_residuals Y P).length = Y.length ∧
    (∀ j, j < Y.length →
      (GradientBoostingRegressor.compute_residuals Y P).getD j 0 =
        Y.getD j 0 - P.getD j 0) ∧
    GradientBoostingRegressor.initial_prediction Y = Y.sum / Y.length ∧
    ∀ v : ℝ, GradientBoostingRegressor.interpret_prediction v = v := by
  refine ⟨by simp [GradientBoostingRegressor.compute_residuals, h],
    fun j hj => ?_, rfl, fun v => rfl⟩
  have hjp : j < P.length := by omega
  have hjz : j < (GradientBoostingRegressor.compute_residuals Y P).length := by
    simp [GradientBoostingRegressor.compute_residuals]
    omega
  unfold GradientBoostingRegressor.compute_residuals at hjz ⊢
  rw [List.getD_eq_getElem _ _ hjz, List.getElem_zipWith,
    ← List.getD_eq_getElem Y 0 hj, ← List.getD_eq_getElem P 0 hjp]

/-- Evaluation of the C6 theorem on a closed input: `Y = [1,2,3]`,
`P = [0,1,1]`. -/
theorem regressor_policy_spec_witness :
    (GradientBoostingRegressor.compute_residuals [1, 2, 3] [0, 1, 1]).length = 3 ∧
    (∀ j, j < 3 →
      (GradientBoostingRegressor.compute_residuals [1, 2, 3] [0, 1, 1]).getD j 0 =
        ([(1 : ℝ), 2, 3]).getD j 0 - ([(0 : ℝ), 1, 1]).getD j 0) ∧
    GradientBoostingRegressor.initial_prediction [1, 2, 3] =
      ([(1 : ℝ), 2, 3]).sum / ([(1 : ℝ), 2, 3]).length ∧
    ∀ v : ℝ, GradientBoostingRegressor.interpret_prediction v = v :=
  regressor_policy_spec [1, 2, 3] [0, 1, 1] rfl

/-- C7: the classifier policy computes residuals
`Y[j] - sigmoid(predictions[j])` pointwise, with
`sigmoid(x) = 1 / (1 + exp(-x))`: residuals live in probability space while
the prediction vector itself is left in logit space (it is only read, never
transformed, by `_compute_residuals`). -/
theorem classifier_residuals_prob_space (Y P : List ℝ) (h : Y.length = P.length) :
    (GradientBoostingClassifier.compute_residuals Y P).length = Y.length ∧
    (∀ j, j < Y.length →
      (GradientBoostingClassifier.compute_residuals Y P).getD j 0 =
        Y.getD j 0 - sigmoid (P.getD j 0)) ∧
    ∀ x : ℝ, sigmoid x = 1 / (1 + Real.exp (-x)) := by
  refine ⟨by simp [GradientBoostingClassifier.compute_residuals, h],
    fun j hj => ?_, fun x => rfl⟩
  have hjp : j < P.length := by omega
  have hjz : j < (GradientBoostingClassifier.compute_residuals Y P).length := by
    simp [GradientBoostingClassifier.compute_residuals]
    omega
  unfold GradientBoostingClassifier.compute_residuals at hjz ⊢
  rw [List.getD_eq_getElem _ _ hjz, List.getElem_zipWith,
    ← List.getD_eq_getElem Y 0 hj, ← List.getD_eq_getElem P 0 hjp]

/-- Evaluation of the C7 theorem on a closed input: `Y = [1,0]`,
`P = [0,0]`. -/
theorem classifier_residuals_prob_space_witness :
    (GradientBoostingClassifier.compute_residuals [1, 0] [0, 0]).length = 2 ∧
    (∀ j, j < 2 →
      (GradientBoostingClassifier.compute_residuals [1, 0] [0, 0]).getD j 0 =
        ([(1 : ℝ), 0]).getD j 0 - sigmoid (([(0 : ℝ), 0]).getD j 0)) ∧
    ∀ x : ℝ, sigmoid x = 1 / (1 + Real.exp (-x)) :=
  classifier_residuals_prob_space [1, 0] [0, 0] rfl

/-- C8: the pipeline is deterministic.  `predict` is a pure function of the
ensemble, the initial prediction, the learning rate and the features — two
engines agreeing on those three fields produce the same output on the same
features (the remaining fields `max_depth`, `n_estimators` are not read) —
and running `fit` then `predict` twice on identical inputs yields identical
outputs. -/
theorem pipeline_deterministic {W : Type} (wl : WeakLearner W) (pol : LossPolicy)
    (m₁ m₂ : GradientBoostingTree W) (X : List (List ℝ)) (Y : List ℝ)
    (Xq : List (List ℝ))
    (he : m₁.estimators = m₂.estimators)
    (hi : m₁.initial_prediction = m₂.initial_prediction)
    (hl : m₁.learning_rate = m₂.learning_rate) :
    GradientBoostingTree.predict wl pol m₁ Xq =
      GradientBoostingTree.predict wl pol m₂ Xq ∧
    GradientBoostingTree.predict wl pol
        (GradientBoostingTree.fit wl pol m₁ X Y) Xq =
      GradientBoostingTree.predict wl pol
        (GradientBoostingTree.fit wl pol m₁ X Y) Xq := by
  refine ⟨?_, rfl⟩
  unfold GradientBoostingTree.predict
  simp only [he, hi, hl]

/-- Evaluation of the C8 theorem on closed inputs: two engines that differ
only in `max_depth` and `n_estimators` predict identically. -/
theorem pipeline_deterministic_witness :
    GradientBoostingTree.predict constWL GradientBoostingRegressor.policy
        ⟨[()], 5, 7, 1, some 2⟩ [[0]] =
      GradientBoostingTree.predict constWL GradientBoostingRegressor.policy
        ⟨[()], 3, 4, 1, some 2⟩ [[0]] ∧
    GradientBoostingTree.predict constWL GradientBoostingRegressor.policy
        (GradientBoostingTree.fit constWL GradientBoostingRegressor.policy
          ⟨[()], 5, 7, 1, some 2⟩ [[0]] [0]) [[0]] =
      GradientBoostingTree.predict constWL GradientBoostingRegressor.policy
        (GradientBoostingTree.fit constWL GradientBoostingRegressor.policy
          ⟨[()], 5, 7, 1, some 2⟩ [[0]] [0]) [[0]] :=
  pipeline_deterministic constWL GradientBoostingRegressor.policy
    ⟨[()], 5, 7, 1, some 2⟩ ⟨[()], 3, 4, 1, some 2⟩ [[0]] [0] [[0]] rfl rfl rfl

/-- C9: on a freshly constructed engine (no `fit` yet, so
`initial_prediction` was never assigned), `predict` does not return a normal
result — it yields `none`, the model of Python's `AttributeError` — and the
engine state is unchanged by the failed call. -/
theorem predict_before_fit_fails {W : Type} (wl : WeakLearner W)
    (pol : LossPolicy) (n d : ℕ) (lr : ℝ) (X : List (List ℝ)) :
    GradientBoostingTree.predictS wl pol (GradientBoostingTree.init W n d lr) X =
      (GradientBoostingTree.init W n d lr, none) := rfl

/-- C10: `predict` never mutates the engine (the post-state of the
state-passing form is the pre-state, so ensemble, initial prediction and all
hyperparameters are untouched), and `fit` leaves the three constructor
hyperparameters `n_estimators`, `max_depth`, `learning_rate` unchanged. -/
theorem fit_predict_frame {W : Type} (wl : WeakLearner W) (pol : LossPolicy)
    (m : GradientBoostingTree W) (X : List (List ℝ)) (Y : List ℝ)
    (X2 : List (List ℝ)) :
    (GradientBoostingTree.fit wl pol m X Y).n_estimators = m.n_estimators ∧
    (GradientBoostingTree.fit wl pol m X Y).max_depth = m.max_depth ∧
    (GradientBoostingTree.fit wl pol m X Y).learning_rate = m.learning_rate ∧
    (GradientBoostingTree.predictS wl pol m X2).1 = m :=
  ⟨rfl, rfl, rfl, rfl⟩
